import Mathlib

/-
Shallow embedding of src/streamlit-frontend/streamlit_app.py.

The script is a Streamlit form.  The logical core is the generate-button
handler (lines 126-211), the Clear Image button (lines 264-267) and the
Check Health button (lines 273-289).  We embed them as pure functions over
an explicit `SessionState`, with the outcome of each blocking HTTP call
supplied as a parameter (`HttpOutcome` / `HealthOutcome`), since the
network is an external collaborator.  Wall-clock readings are supplied by
a `TimingEnv`.  Image bytes are abstracted as the transported base64
string wrapped in a structure: no claim inspects the decoded pixels.
Python `str.strip()` is embedded as `pyStrip` below (remove surrounding
whitespace; defined by structural recursion so that it evaluates inside the
kernel), and Python string truthiness (`if s:`) as `s = ""` tests.
-/

namespace ImageGen

/-- Drop leading whitespace characters from a character list. -/
def stripLeading : List Char → List Char
  | [] => []
  | c :: cs => if c.isWhitespace then stripLeading cs else c :: cs

/-- Embedding of Python `str.strip()`: remove leading and trailing
whitespace. -/
def pyStrip (s : String) : String :=
  ⟨(stripLeading (stripLeading s.data).reverse).reverse⟩

/-- The decoded image stored in session state (`Image.open(BytesIO(img_data))`,
line 175).  Pixel decoding is opaque to every claim, so the image is
represented by the transported data. -/
structure Image where
  data : String
deriving DecidableEq, Repr

/-- Lines 174-175: `base64.b64decode(data["image_base64"])` then `Image.open`. -/
def decodeImage (image_base64 : String) : Image := ⟨image_base64⟩

/-- The `parameters` dictionary stored on success (lines 188-196). -/
structure GenParams where
  steps : Nat
  cfg_scale : ℚ
  resolution : String
  seed : Int
  aspectRatioName : String
  language_enhancement : String
  custom_enhancement : String
deriving DecidableEq, Repr

/-- The `generation_info` dictionary stored on success (lines 182-197). -/
structure GenerationInfo where
  prompt : String
  original_prompt : String
  negative_prompt : String
  elapsed_time : ℚ
  timestamp : Int
  parameters : GenParams
deriving DecidableEq, Repr

/-- The mutable Streamlit session state (keys initialized at lines 17-24). -/
structure SessionState where
  generated_image : Option Image
  generation_info : Option GenerationInfo
  current_prompt : String
  generating : Bool
deriving DecidableEq, Repr

/-- Session-state initialization, lines 17-24. -/
def initState : SessionState :=
  { generated_image := none
  , generation_info := none
  , current_prompt := "A beautiful landscape with mountains and lakes"
  , generating := false }

/-- The aspect-ratio presets, lines 53-61 (name, (width, height)). -/
def aspect_ratios : List (String × Nat × Nat) :=
  [ ("Square (1:1)", 1328, 1328)
  , ("Landscape (16:9)", 1664, 928)
  , ("Portrait (9:16)", 928, 1664)
  , ("Photo (4:3)", 1472, 1140)
  , ("Portrait Photo (3:4)", 1140, 1472)
  , ("Wide (3:2)", 1584, 1056)
  , ("Tall (2:3)", 1056, 1584) ]

/-- Line 64: `width, height = aspect_ratios[selected_ratio]`. -/
def lookupRatio (name : String) : Option (Nat × Nat) :=
  (aspect_ratios.find? fun p => p.1 == name).map Prod.snd

/-- Lines 83-94: the seed is the sentinel -1 when the Use Random Seed box is
checked, else the number input. -/
def seedOf (use_random_seed : Bool) (manual_seed : Int) : Int :=
  if use_random_seed then -1 else manual_seed

/-- Lines 105-110: the language-based quality suffix. -/
def positiveMagicOf (language : String) : String :=
  if language = "English" then ", Ultra HD, 4K, cinematic composition."
  else if language = "Chinese" then ", 超清，4K，电影级构图."
  else ""

/-- Lines 105-123: a non-empty `custom_positive` overrides the language
suffix (`if custom_positive: positive_magic = custom_positive`). -/
def positive_magic (language custom_positive : String) : String :=
  if custom_positive = "" then positiveMagicOf language else custom_positive

/-- Lines 136-138: `enhanced_prompt = prompt`; if the magic string is truthy
it becomes `prompt + positive_magic`. -/
def enhancedPrompt (prompt magic : String) : String :=
  if magic = "" then prompt else prompt ++ magic

/-- Line 143: `negative_prompt if negative_prompt.strip() else " "`. -/
def payloadNegPrompt (negative_prompt : String) : String :=
  if pyStrip negative_prompt = "" then " " else negative_prompt

/-- The JSON request body posted to `{api_url}/generate` (lines 141-149). -/
structure Payload where
  prompt : String
  negative_prompt : String
  num_inference_steps : Nat
  width : Nat
  height : Nat
  true_cfg_scale : ℚ
  seed : Int
deriving DecidableEq, Repr

/-- The form widgets feeding the handler (prompt line 38, sliders lines 48-49,
ratio lines 63-64, advanced settings lines 75-123, api url line 35). -/
structure FormInputs where
  api_url : String
  prompt : String
  num_steps : Nat
  cfg_scale : ℚ
  selectedRatioName : String
  width : Nat
  height : Nat
  negative_prompt : String
  seed : Int
  language : String
  custom_positive : String
deriving DecidableEq, Repr

/-- Payload construction, lines 141-149. -/
def payloadOf (inp : FormInputs) : Payload :=
  { prompt := enhancedPrompt inp.prompt (positive_magic inp.language inp.custom_positive)
  , negative_prompt := payloadNegPrompt inp.negative_prompt
  , num_inference_steps := inp.num_steps
  , width := inp.width
  , height := inp.height
  , true_cfg_scale := inp.cfg_scale
  , seed := inp.seed }

/-- The JSON body of a `/generate` response that reaches the decode step
(lines 173-178): `image_base64`, optional `seed_used`. -/
structure ResponseBody where
  image_base64 : String
  seed_used : Option Int
deriving DecidableEq, Repr

/-- Terminal outcome of the blocking `requests.post` call (lines 160-164) as
observed by the handler: an HTTP response with a status code, body and text,
or one of the exceptions caught at lines 203-211. -/
inductive HttpOutcome where
  | response (status : Nat) (body : ResponseBody) (text : String)
  | timeout
  | connectionError
  | otherException (msg : String)
deriving DecidableEq, Repr

/-- Wall-clock readings taken by the handler (lines 157, 166, 187). -/
structure TimingEnv where
  elapsed_time : ℚ
  timestamp : Int
deriving DecidableEq, Repr

/-- What the handler reports for one submission: the spec's error taxonomy
mapped onto the `st.error` / success branches of lines 127-211. -/
inductive SubmitResult where
  | emptyPromptError
  | success (elapsed : ℚ)
  | backendError (status : Nat) (text : String)
  | timeoutError
  | unreachableError (endpoint : String)
  | unknownError (msg : String)
deriving DecidableEq, Repr

/-- Everything observable about one run of the generate-button handler:
the session state after it returns, the reported result, whether the POST
was issued, the session state at the moment the POST was issued (none if it
was not), and the payload sent. -/
structure SubmitOutput where
  state : SessionState
  result : SubmitResult
  networkCalled : Bool
  stateAtRequest : Option SessionState
  payloadSent : Option Payload
deriving DecidableEq, Repr

/-- The generate-button handler, lines 126-211.
Control flow, in source order: the `prompt.strip()` guard (127-128); the
eager clear of `generated_image` / `generation_info` and setting of
`generating` (130-133); payload construction (136-149); the POST (160-164);
the 200 branch storing image and info and clearing `generating` (168-198);
the non-200 branch showing an error and — faithfully to the source — NOT
clearing `generating` (200-201); the three except branches, each clearing
`generating` (203-211). -/
def submit (inp : FormInputs) (s : SessionState) (outcome : HttpOutcome)
    (env : TimingEnv) : SubmitOutput :=
  if pyStrip inp.prompt = "" then
    { state := s
    , result := .emptyPromptError
    , networkCalled := false
    , stateAtRequest := none
    , payloadSent := none }
  else
    let s1 : SessionState :=
      { s with generated_image := none, generation_info := none, generating := true }
    let payload := payloadOf inp
    match outcome with
    | .response status body text =>
      if status = 200 then
        let img := decodeImage body.image_base64
        let actual_seed := body.seed_used.getD inp.seed
        let info : GenerationInfo :=
          { prompt := payload.prompt
          , original_prompt := inp.prompt
          , negative_prompt := inp.negative_prompt
          , elapsed_time := env.elapsed_time
          , timestamp := env.timestamp
          , parameters :=
            { steps := inp.num_steps
            , cfg_scale := inp.cfg_scale
            , resolution := toString inp.width ++ "x" ++ toString inp.height
            , seed := actual_seed
            , aspectRatioName := inp.selectedRatioName
            , language_enhancement := inp.language
            , custom_enhancement := inp.custom_positive } }
        { state := { s1 with
                      generated_image := some img
                    , generation_info := some info
                    , generating := false }
        , result := .success env.elapsed_time
        , networkCalled := true
        , stateAtRequest := some s1
        , payloadSent := some payload }
      else
        { state := s1
        , result := .backendError status text
        , networkCalled := true
        , stateAtRequest := some s1
        , payloadSent := some payload }
    | .timeout =>
      { state := { s1 with generating := false }
      , result := .timeoutError
      , networkCalled := true
      , stateAtRequest := some s1
      , payloadSent := some payload }
    | .connectionError =>
      { state := { s1 with generating := false }
      , result := .unreachableError inp.api_url
      , networkCalled := true
      , stateAtRequest := some s1
      , payloadSent := some payload }
    | .otherException msg =>
      { state := { s1 with generating := false }
      , result := .unknownError msg
      , networkCalled := true
      , stateAtRequest := some s1
      , payloadSent := some payload }

/-- The Clear Image button handler, lines 264-267. -/
def clear (s : SessionState) : SessionState :=
  { s with generated_image := none, generation_info := none }

/-- The optional `gpu_info` object of a `/health` response (lines 280-285). -/
structure GpuInfo where
  gpu_count : Option Int
  gpu_memory : Option (List String)
deriving DecidableEq, Repr

/-- The JSON body of a `/health` response. -/
structure HealthBody where
  gpu_info : Option GpuInfo
deriving DecidableEq, Repr

/-- Terminal outcome of the blocking `requests.get` call (line 275): a
response with a status code and body, or any exception (caught by the bare
`except:` at line 288). -/
inductive HealthOutcome where
  | response (status : Nat) (body : HealthBody)
  | exception
deriving DecidableEq, Repr

/-- What the Check Health handler displays in the sidebar: the healthy
banner with the optional gpu details, or one of the two error strings. -/
inductive HealthReport where
  | healthy (gpu_info : Option GpuInfo)
  | errorMsg (msg : String)
deriving DecidableEq, Repr

/-- The Check Health button handler, lines 273-289: 200 shows the healthy
banner and gpu details; any other status shows "❌ Service unhealthy"; any
exception shows "❌ Cannot reach service". -/
def checkHealth (outcome : HealthOutcome) : HealthReport :=
  match outcome with
  | .response status body =>
    if status = 200 then .healthy body.gpu_info
    else .errorMsg "❌ Service unhealthy"
  | .exception => .errorMsg "❌ Cannot reach service"

/-- Whether the outcome of the POST is an HTTP 200 response. -/
def HttpOutcome.is200 : HttpOutcome → Bool
  | .response status _ _ => status == 200
  | _ => false

/-- The invariant from the data-model section of the spec: `generated_image`
and `generation_info` are both present or both absent. -/
def bothPresentOrBothAbsent (s : SessionState) : Prop :=
  s.generated_image.isSome = s.generation_info.isSome

instance (s : SessionState) : Decidable (bothPresentOrBothAbsent s) := by
  unfold bothPresentOrBothAbsent; infer_instance

/-- Concrete form inputs for the spec scenario: prompt "A cat", enhancement
None, custom "", empty negative prompt, 50 steps, Square ratio, cfg 4.0,
random seed.  Width and height are taken from the aspect-ratio table, the
seed from the random-seed checkbox path. -/
def catInputs : FormInputs :=
  { api_url := "http://localhost:8000"
  , prompt := "A cat"
  , num_steps := 50
  , cfg_scale := 4
  , selectedRatioName := "Square (1:1)"
  , width := ((lookupRatio "Square (1:1)").getD (0, 0)).1
  , height := ((lookupRatio "Square (1:1)").getD (0, 0)).2
  , negative_prompt := ""
  , seed := seedOf true 42
  , language := "None"
  , custom_positive := "" }

/-- The same form with a whitespace-only prompt. -/
def blankInputs : FormInputs := { catInputs with prompt := "   " }

/-- Concrete wall-clock readings. -/
def sampleEnv : TimingEnv := { elapsed_time := 12, timestamp := 1700000000 }

/-- A concrete 200-response body. -/
def okBody : ResponseBody := { image_base64 := "aGVsbG8=", seed_used := some 123 }

/-- A session state holding a previously stored successful result. -/
def richState : SessionState :=
  { generated_image := some ⟨"b2xk"⟩
  , generation_info := some
      { prompt := "old"
      , original_prompt := "old"
      , negative_prompt := ""
      , elapsed_time := 3
      , timestamp := 1600000000
      , parameters :=
        { steps := 30
        , cfg_scale := 4
        , resolution := "1328x1328"
        , seed := 5
        , aspectRatioName := "Square (1:1)"
        , language_enhancement := "English"
        , custom_enhancement := "" } }
  , current_prompt := "old"
  , generating := false }

/-- Claim C1: the spec states that `generating` is false immediately after
submit returns for every terminal outcome.  The code violates this on the
non-200 branch (lines 200-201 only call `st.error`; no assignment clears the
flag there, unlike the 200 branch and all three except branches), so after
an HTTP 500 response with body "OOM", submit returns with `generating` still
true.  This theorem evaluates the handler at that failing input. -/
theorem C1_non200_leaves_generating_stuck :
    (submit catInputs initState (.response 500 okBody "OOM") sampleEnv).result
        = .backendError 500 "OOM"
      ∧ (submit catInputs initState (.response 500 okBody "OOM") sampleEnv).state.generating
        = true := by
  constructor <;> rfl

/-- Claim C2: for every prompt that strips to the empty string, submit issues
no network call and reports the empty-prompt error. -/
theorem C2_emptyPrompt_noNetwork (inp : FormInputs) (s : SessionState)
    (o : HttpOutcome) (env : TimingEnv) (h : pyStrip inp.prompt = "") :
    (submit inp s o env).networkCalled = false
      ∧ (submit inp s o env).result = .emptyPromptError := by
  simp [submit, h]

/-- Witness for C2 at the concrete whitespace-only prompt "   ". -/
theorem C2_emptyPrompt_noNetwork_witness :
    (submit blankInputs richState .timeout sampleEnv).networkCalled = false
      ∧ (submit blankInputs richState .timeout sampleEnv).result = .emptyPromptError :=
  C2_emptyPrompt_noNetwork blankInputs richState .timeout sampleEnv (by decide)

/-- Claim C3: for every submission whose prompt does not strip to empty, the
session state at the moment the POST is issued is the prior state with
`generated_image` and `generation_info` cleared (and `generating` set); the
result fields are repopulated exactly when the outcome is HTTP 200, and on
any non-200 outcome — timeout and every other failure included — the
returned state stores no result, so a prior result remains cleared. -/
theorem C3_eagerClear_repopulateOnlyOnSuccess (inp : FormInputs)
    (s : SessionState) (o : HttpOutcome) (env : TimingEnv)
    (h : ¬ pyStrip inp.prompt = "") :
    (submit inp s o env).stateAtRequest
        = some { s with generated_image := none, generation_info := none
                      , generating := true }
      ∧ (o.is200 = false → (submit inp s o env).state.generated_image = none
          ∧ (submit inp s o env).state.generation_info = none)
      ∧ (o.is200 = true → (submit inp s o env).state.generated_image.isSome = true
          ∧ (submit inp s o env).state.generation_info.isSome = true) := by
  cases o with
  | response status body text =>
      by_cases hs : status = 200 <;>
        simp [submit, h, hs, HttpOutcome.is200]
  | timeout => simp [submit, h, HttpOutcome.is200]
  | connectionError => simp [submit, h, HttpOutcome.is200]
  | otherException msg => simp [submit, h, HttpOutcome.is200]

/-- Witness for C3: a concrete submission over a state holding an old result,
ending in timeout: the state at request time has both fields cleared, and
after the timeout no result is stored. -/
theorem C3_eagerClear_witness :
    (submit catInputs richState .timeout sampleEnv).stateAtRequest
        = some { richState with generated_image := none, generation_info := none
                              , generating := true }
      ∧ (submit catInputs richState .timeout sampleEnv).state.generated_image = none
      ∧ (submit catInputs richState .timeout sampleEnv).state.generation_info = none :=
  ⟨(C3_eagerClear_repopulateOnlyOnSuccess catInputs richState .timeout sampleEnv
      (by decide)).1,
   (C3_eagerClear_repopulateOnlyOnSuccess catInputs richState .timeout sampleEnv
      (by decide)).2.1 (by decide)⟩

/-- Claim C4: the both-present-or-both-absent invariant on
`generated_image` / `generation_info` holds at session initialization and is
preserved by submit (any inputs, any outcome) and by clear. -/
theorem C4_bothOrNeither_invariant :
    bothPresentOrBothAbsent initState
      ∧ (∀ (inp : FormInputs) (s : SessionState) (o : HttpOutcome) (env : TimingEnv),
          bothPresentOrBothAbsent s → bothPresentOrBothAbsent (submit inp s o env).state)
      ∧ (∀ s : SessionState, bothPresentOrBothAbsent s → bothPresentOrBothAbsent (clear s)) := by
  refine ⟨rfl, ?_, ?_⟩
  · intro inp s o env hinv
    by_cases hp : pyStrip inp.prompt = ""
    · simpa [submit, hp] using hinv
    · cases o with
      | response status body text =>
          by_cases hs : status = 200 <;>
            simp [submit, hp, hs, bothPresentOrBothAbsent]
      | timeout => simp [submit, hp, bothPresentOrBothAbsent]
      | connectionError => simp [submit, hp, bothPresentOrBothAbsent]
      | otherException msg => simp [submit, hp, bothPresentOrBothAbsent]
  · intro s hinv
    simp [clear, bothPresentOrBothAbsent]

/-- Witness for C4 at concrete states: a timed-out submission over a state
with a stored result, and clear on the same state. -/
theorem C4_bothOrNeither_witness :
    bothPresentOrBothAbsent (submit catInputs richState .timeout sampleEnv).state
      ∧ bothPresentOrBothAbsent (clear richState) :=
  ⟨C4_bothOrNeither_invariant.2.1 catInputs richState .timeout sampleEnv (by decide),
   C4_bothOrNeither_invariant.2.2 richState (by decide)⟩

/-- Claim C5: with English enhancement and empty custom override, the
enhanced prompt is the prompt followed by ", Ultra HD, 4K, cinematic
composition."; and any non-empty custom override yields the prompt followed
by the override, whatever the selected language. -/
theorem C5_enhancedPrompt (prompt language custom : String) :
    enhancedPrompt prompt (positive_magic "English" "")
        = prompt ++ ", Ultra HD, 4K, cinematic composition."
      ∧ (custom ≠ "" → enhancedPrompt prompt (positive_magic language custom)
          = prompt ++ custom) := by
  constructor
  · rfl
  · intro hc
    simp [enhancedPrompt, positive_magic, hc]

/-- Witness for C5 at concrete strings, with the custom override combined
with a different language selection. -/
theorem C5_enhancedPrompt_witness :
    enhancedPrompt "A dog" (positive_magic "English" "")
        = "A dog" ++ ", Ultra HD, 4K, cinematic composition."
      ∧ enhancedPrompt "A dog" (positive_magic "Chinese" ", crisp")
        = "A dog" ++ ", crisp" :=
  ⟨(C5_enhancedPrompt "A dog" "Chinese" ", crisp").1,
   (C5_enhancedPrompt "A dog" "Chinese" ", crisp").2 (by decide)⟩

/-- Claim C6: every negative prompt that strips to empty is transmitted as a
single space, never as the empty string. -/
theorem C6_emptyNegative_sentAsSpace (negative_prompt : String)
    (h : pyStrip negative_prompt = "") :
    payloadNegPrompt negative_prompt = " "
      ∧ payloadNegPrompt negative_prompt ≠ "" := by
  constructor
  · simp [payloadNegPrompt, h]
  · simp [payloadNegPrompt, h]

/-- Witness for C6 at a concrete whitespace-only negative prompt. -/
theorem C6_emptyNegative_witness :
    payloadNegPrompt " \t " = " " ∧ payloadNegPrompt " \t " ≠ "" :=
  C6_emptyNegative_sentAsSpace " \t " (by decide)

/-- Claim C7 counterexample: the claim says the transmitted negative prompt
equals the stripped value when that is non-empty, but at " blur " (stripped
value "blur", non-empty) the code transmits the original string unstripped. -/
theorem C7_counterexample :
    pyStrip " blur " ≠ "" ∧ payloadNegPrompt " blur " ≠ pyStrip " blur " := by
  decide

/-- Claim C7 as amended: the payload field is the negative prompt UNCHANGED
(not stripped) when its stripped value is non-empty, and a single space
otherwise. -/
theorem C7_negPrompt_unchanged_or_space (negative_prompt : String) :
    (pyStrip negative_prompt ≠ "" → payloadNegPrompt negative_prompt = negative_prompt)
      ∧ (pyStrip negative_prompt = "" → payloadNegPrompt negative_prompt = " ") := by
  constructor <;> intro h <;> simp [payloadNegPrompt, h]

/-- Witness for the amended C7 at concrete strings on both branches. -/
theorem C7_negPrompt_witness :
    payloadNegPrompt " blur " = " blur " ∧ payloadNegPrompt "  " = " " :=
  ⟨(C7_negPrompt_unchanged_or_space " blur ").1 (by decide),
   (C7_negPrompt_unchanged_or_space "  ").2 (by decide)⟩

/-- Claim C8: the "A cat" scenario payload, with width and height resolved
through the aspect-ratio table, matches the spec scenario exactly. -/
theorem C8_catScenario_payload :
    lookupRatio "Square (1:1)" = some (1328, 1328)
      ∧ payloadOf catInputs
        = { prompt := "A cat"
          , negative_prompt := " "
          , num_inference_steps := 50
          , width := 1328
          , height := 1328
          , true_cfg_scale := 4
          , seed := -1 } := by
  constructor <;> rfl

/-- Claim C9 counterexample: the claim says non-200 responses and exceptions
report one and the same uniform failure, but the handler reports
"❌ Service unhealthy" for a 500 response and "❌ Cannot reach service" for
an exception — two distinguishable results. -/
theorem C9_counterexample :
    checkHealth (.response 500 ⟨none⟩) ≠ checkHealth .exception
      ∧ checkHealth (.response 500 ⟨none⟩) = .errorMsg "❌ Service unhealthy"
      ∧ checkHealth .exception = .errorMsg "❌ Cannot reach service" := by
  decide

/-- Claim C9 as amended: every failing outcome of checkHealth reports a bare
error message carrying no status code or exception detail, but the two
failure modes are distinguished by their message text: every non-200 status
reports "❌ Service unhealthy" and every exception reports "❌ Cannot reach
service". -/
theorem C9_health_failure_messages (status : Nat) (body : HealthBody)
    (h : status ≠ 200) :
    checkHealth (.response status body) = .errorMsg "❌ Service unhealthy"
      ∧ checkHealth .exception = .errorMsg "❌ Cannot reach service" := by
  constructor
  · simp [checkHealth, h]
  · rfl

/-- Witness for the amended C9 at a concrete 503 response. -/
theorem C9_health_failure_witness :
    checkHealth (.response 503 ⟨none⟩) = .errorMsg "❌ Service unhealthy"
      ∧ checkHealth .exception = .errorMsg "❌ Cannot reach service" :=
  C9_health_failure_messages 503 ⟨none⟩ (by decide)

/-- Claim C10: a submission whose prompt strips to empty leaves the whole
session state exactly as it was — the eager clear does not run, the
in-flight flag is never set (no state is ever installed for a request) — so
a previously stored result survives. -/
theorem C10_emptyPrompt_frame (inp : FormInputs) (s : SessionState)
    (o : HttpOutcome) (env : TimingEnv) (h : pyStrip inp.prompt = "") :
    (submit inp s o env).state = s
      ∧ (submit inp s o env).stateAtRequest = none := by
  simp [submit, h]

/-- Witness for C10: a whitespace-only prompt over a state holding an old
result leaves that state untouched. -/
theorem C10_emptyPrompt_frame_witness :
    (submit blankInputs richState (.response 200 okBody "") sampleEnv).state = richState
      ∧ (submit blankInputs richState (.response 200 okBody "") sampleEnv).stateAtRequest
        = none :=
  C10_emptyPrompt_frame blankInputs richState (.response 200 okBody "") sampleEnv
    (by decide)

end ImageGen
